import Mathlib

/-!
Verification development for the LVGL-to-JerryScript binding generator
(scripts/gen_lvgl_binding.py) of the ElenaOS PC simulator repository.

The Python generator is shallowly embedded: its pure helper functions
(parse_type, the is_*_type classifiers, get_typedef_base_type,
find_real_function_definition, generate_arg_parsing,
generate_binding_function, the curated-list loaders) become Lean
functions over a faithful model of the lvgl.json type descriptors.
String emission is abstracted to statement ASTs that preserve the order
and control structure of the emitted C statements, and a small
operational semantics executes a generated wrapper on scripted values.
The runtime callback registry and parse_lv_color, which the generator
emits as fixed C code (HEADER_CODE), are embedded directly from that C
source as state-passing functions.
-/

/-! ## String helpers

Python string operations used by the generator, modelled over the
character list of a string so that everything reduces in the kernel. -/

/-- Tests whether sub occurs as a contiguous substring of l
(model of the Python `in` operator on strings). -/
def listContainsSub : List Char → List Char → Bool
  | l, sub =>
    if sub.isPrefixOf l then true
    else
      match l with
      | [] => false
      | _ :: rest => listContainsSub rest sub

/-- Python: `sub in s`. -/
def strContains (s sub : String) : Bool := listContainsSub s.data sub.data

/-- Python: `s.replace(" ", "")` (removal of every space). -/
def stripSpaces (s : String) : String := ⟨s.data.filter (fun c => !(c == ' '))⟩

/-- Whitespace recognised by Python `str.strip()` (the subset that can
occur in the curated list files and macro initializers). -/
def isSpaceChar (c : Char) : Bool :=
  c == ' ' || c == '\t' || c == '\n' || c == '\r'

/-- Python: `s.strip()`. -/
def pyStrip (s : String) : String :=
  ⟨((s.data.dropWhile isSpaceChar).reverse.dropWhile isSpaceChar).reverse⟩

/-- Python: `s.startswith(p)`. -/
def strStartsWith (s p : String) : Bool := p.data.isPrefixOf s.data

/-- Python: `s.endswith(p)`. -/
def strEndsWith (s p : String) : Bool := p.data.isSuffixOf s.data

/-- Python: `" ".join(l)`. -/
def joinSpace (l : List String) : String := String.intercalate " " l

/-! ## Type descriptors (lvgl.json nodes) and parse_type -/

/-- The json_type tag of a named type node: primitive_type, stdlib_type,
or any other tag (lvgl_type, typedef reference, ...). -/
inductive JsonKind where
  | primitive
  | stdlib
  | other
  deriving DecidableEq

/-- One type descriptor node of the lvgl.json API description, as read
by parse_type: a missing/null node, a ret_type wrapper, a pointer node
with qualifiers, a named node with qualifiers, or a node with none of
those shapes. -/
inductive TypeDesc where
  | null
  | ret (t : TypeDesc)
  | pointer (quals : List String) (t : TypeDesc)
  | named (k : JsonKind) (quals : List String) (nm : String)
  | unnamed
  deriving DecidableEq

/-- The metadata dictionary returned by parse_type:
keys is_void, is_pointer, base_type, type_name, is_primitive, is_stdlib
(absent boolean keys modelled as false, absent optional keys as none). -/
inductive TypeMeta : Type where
  | mk (is_void : Bool) (is_pointer : Bool) (base : Option TypeMeta)
       (type_name : Option String) (is_primitive : Bool) (is_stdlib : Bool)

def TypeMeta.is_void : TypeMeta → Bool
  | .mk v _ _ _ _ _ => v

def TypeMeta.is_pointer : TypeMeta → Bool
  | .mk _ p _ _ _ _ => p

def TypeMeta.base : TypeMeta → Option TypeMeta
  | .mk _ _ b _ _ _ => b

def TypeMeta.type_name : TypeMeta → Option String
  | .mk _ _ _ n _ _ => n

def TypeMeta.is_primitive : TypeMeta → Bool
  | .mk _ _ _ _ pr _ => pr

def TypeMeta.is_stdlib : TypeMeta → Bool
  | .mk _ _ _ _ _ st => st

/-- parse_type result for a missing or unrecognised descriptor. -/
def voidMeta : TypeMeta := .mk true false none none false false

/-- Python: `type_info['base_type'].get('is_void')` guarded by
is_pointer (the key exists whenever is_pointer is set). -/
def baseIsVoid (m : TypeMeta) : Bool :=
  match m.base with
  | some b => b.is_void
  | none => false

/-- parse_type: resolves a descriptor node to the C type string and the
metadata dictionary.  Mirrors the Python branch order: falsy node,
ret_type, pointer, named, fallback. -/
def parseType : TypeDesc → String × TypeMeta
  | .null => ("void", voidMeta)
  | .ret t => parseType t
  | .pointer quals t =>
      let base := parseType t
      let q := joinSpace quals
      let meta := TypeMeta.mk false true (some base.2) none false false
      if q ≠ "" then (q ++ " " ++ base.1 ++ "*", meta)
      else (base.1 ++ "*", meta)
  | .named k quals nm =>
      let q := joinSpace quals
      let meta := TypeMeta.mk false false none (some nm) (k == .primitive) (k == .stdlib)
      if q ≠ "" then (q ++ " " ++ nm, meta) else (nm, meta)
  | .unnamed => ("void", voidMeta)

/-! ## Textual type classifiers -/

/-- is_void_type: `'void' in type_str and '*' not in type_str`. -/
def is_void_type (s : String) : Bool := strContains s "void" && !(strContains s "*")

/-- is_lv_color_t: `'lv_color_t' in type_str`. -/
def is_lv_color_t (s : String) : Bool := strContains s "lv_color_t"

/-- is_void_pointer: `'void*' in type_str.replace(' ', '')`. -/
def is_void_pointer (s : String) : Bool := strContains (stripSpaces s) "void*"

/-- is_lv_obj_pointer: `type_str.replace(' ', '') == 'lv_obj_t*'`. -/
def is_lv_obj_pointer (s : String) : Bool := stripSpaces s == "lv_obj_t*"

/-- is_object_pointer: ends with * and mentions lv_ or obj. -/
def is_object_pointer (s : String) : Bool :=
  strEndsWith s "*" && (strContains s "lv_" || strContains s "obj")

/-- The literal list in is_string_pointer (the two entries containing a
space can never match the space-stripped input; kept verbatim). -/
def string_pointer_forms : List String :=
  ["char*", "constchar*", "const char*", "char const*"]

/-- is_string_pointer: normalized form member of the fixed list. -/
def is_string_pointer (s : String) : Bool :=
  string_pointer_forms.any (fun f => stripSpaces s == f)

/-- The fixed list number_types of is_number_type, verbatim. -/
def number_type_names : List String :=
  ["int", "float", "double", "uint8_t", "uint16_t", "uint32_t",
   "int8_t", "int16_t", "int32_t", "size_t", "bool", "short",
   "long", "unsigned", "signed", "uintptr_t"]

/-- is_number_type: `any(num_type in type_str for num_type in number_types)`
(substring containment, not name equality). -/
def is_number_type (s : String) : Bool :=
  number_type_names.any (fun t => strContains s t)

/-- is_lvgl_value_type: mentions lv_ and is not a pointer. -/
def is_lvgl_value_type (s : String) : Bool :=
  strContains s "lv_" && !(strContains s "*")

/-! ## API description data and the alias/enum resolver -/

/-- One entry of the macros collection: name and optional initializer
text (Python key: initializer). -/
structure MacroDef where
  name : String
  init : Option String
  deriving DecidableEq

/-- One function argument: optional name key and optional type key. -/
structure FuncArg where
  name : Option String
  type : Option TypeDesc
  deriving DecidableEq

/-- One function (or function pointer) definition: name, optional
return-type descriptor (key type), and argument list (key args). -/
structure FuncDef where
  name : String
  type : Option TypeDesc
  args : List FuncArg
  deriving DecidableEq

/-- The whole parsed lvgl.json document as consumed by the generator:
enum names, typedefs (name to underlying descriptor), macros, functions
and function pointers. -/
structure ApiData where
  enums : List String
  typedefs : List (String × TypeDesc)
  macros : List MacroDef
  functions : List FuncDef
  function_pointers : List FuncDef

/-- is_enum_type: linear scan of the enums collection by name. -/
def is_enum_type (nm : String) (d : ApiData) : Bool := d.enums.any (fun e => e == nm)

/-- Loop body of is_typedef_convertible_to_basic over the typedefs
list: a matching entry that is neither pointer-to-void nor
primitive/stdlib lets the loop continue scanning. -/
def convertibleScan (nm : String) : List (String × TypeDesc) → Bool
  | [] => false
  | (n, ty) :: rest =>
      if n == nm then
        let info := (parseType ty).2
        if info.is_pointer && baseIsVoid info then true
        else if info.is_primitive || info.is_stdlib then true
        else convertibleScan nm rest
      else convertibleScan nm rest

/-- is_typedef_convertible_to_basic. -/
def is_typedef_convertible_to_basic (nm : String) (d : ApiData) : Bool :=
  is_enum_type nm d || convertibleScan nm d.typedefs

/-- Loop body of get_typedef_base_type over the typedefs list (same
continue-on-no-branch structure as convertibleScan). -/
def baseTypeScan (nm : String) : List (String × TypeDesc) → Option String
  | [] => none
  | (n, ty) :: rest =>
      if n == nm then
        let base := parseType ty
        if base.2.is_pointer && baseIsVoid base.2 then some "uintptr_t"
        else if base.2.is_primitive || base.2.is_stdlib then some base.1
        else baseTypeScan nm rest
      else baseTypeScan nm rest

/-- get_typedef_base_type: an enum name resolves to int; otherwise the
typedef table is scanned, a pointer-to-void alias resolves to
uintptr_t, a primitive/stdlib alias resolves to that scalar base type
string, anything else to none. -/
def get_typedef_base_type (nm : String) (d : ApiData) : Option String :=
  if is_enum_type nm d then some "int" else baseTypeScan nm d.typedefs

/-! ## Argument-parsing code generation (generate_arg_parsing)

Each generate_*_arg_parsing helper of the Python generator emits a
fixed C statement block; the blocks are abstracted here to one AST
constructor each, carrying exactly the data interpolated into the
block (argument index, C variable name, type string). -/

/-- The marshalling block emitted for one argument. -/
inductive ArgParseCode where
  | objectPtr (index : Nat) (nm : String)
  | skipVoid
  | voidPtr (index : Nat) (nm : String)
  | genericPtr (index : Nat) (nm : String) (typeStr : String)
  | stringArg (index : Nat) (nm : String)
  | colorArg (index : Nat) (nm : String)
  | boolPermissive (index : Nat) (nm : String) (typeStr : String)
  | numberArg (index : Nat) (nm : String) (typeStr : String)
  | boolStrict (index : Nat) (nm : String)
  deriving DecidableEq

/-- generate_arg_parsing: the ordered first-match decision chain of the
classification engine, in source order: lv_obj_t pointer, void,
void pointer, object pointer, string pointer, lv_color_t, boolean or
bool-convertible typedef, numeric substring match, typedef resolution
to a scalar base (bool or numeric), generic-pointer fallback. -/
def generate_arg_parsing (index : Nat) (nm : String) (argType : String)
    (m : TypeMeta) (d : ApiData) : ArgParseCode :=
  let ts := stripSpaces argType
  if is_lv_obj_pointer ts then .objectPtr index nm
  else if is_void_type ts then .skipVoid
  else if is_void_pointer ts then .voidPtr index nm
  else if is_object_pointer ts then .objectPtr index nm
  else if is_string_pointer ts then .stringArg index nm
  else if is_lv_color_t ts then .colorArg index nm
  else if ts == "bool" ||
          (is_typedef_convertible_to_basic (m.type_name.getD "") d &&
           (get_typedef_base_type (m.type_name.getD "") d == some "bool")) then
    .boolPermissive index nm ts
  else if is_number_type ts then .numberArg index nm ts
  else
    let tn := m.type_name.getD ""
    if tn ≠ "" then
      match get_typedef_base_type tn d with
      | some b =>
          if b == "bool" then .boolStrict index nm
          else if is_number_type b then .numberArg index nm b
          else .genericPtr index nm ts
      | none => .genericPtr index nm ts
    else .genericPtr index nm ts

/-! ## Return-value code generation -/

/-- The return-marshalling block chosen by generate_binding_function
for a non-void return type (one constructor per generate_*_return). -/
inductive RetCode where
  | voidPtrRet
  | objectRet
  | stringRet
  | numberRet
  | boolRet
  | genericPtrRet
  deriving DecidableEq

/-- The elif chain over the return type inside generate_binding_function
(lines picking among the generate_*_return helpers), in source order. -/
def pickReturnCode (rt : String) (m : TypeMeta) (d : ApiData) : RetCode :=
  if is_void_pointer rt then .voidPtrRet
  else if is_lv_obj_pointer rt then .objectRet
  else if is_string_pointer rt then .stringRet
  else if is_number_type rt || is_lvgl_value_type rt then .numberRet
  else if rt == "bool" then .boolRet
  else
    let tn := m.type_name.getD ""
    if tn ≠ "" then
      match get_typedef_base_type tn d with
      | some b =>
          if b == "bool" then .boolRet
          else if is_number_type b then .numberRet
          else .genericPtrRet
      | none => .genericPtrRet
    else .genericPtrRet

/-! ## Macro alias resolution (find_real_function_definition) -/

/-- Python: initializer.strip() with a trailing semicolon removed and
stripped again. -/
def stripSemi (s : String) : String :=
  let t := pyStrip s
  if strEndsWith t ";" then pyStrip ⟨t.data.dropLast⟩ else t

/-- Linear name lookup in a function collection. -/
def findFuncNamed (l : List FuncDef) (nm : String) : Option FuncDef :=
  l.find? (fun f => f.name == nm)

/-- The macro loop of find_real_function_definition: a macro whose name
matches and that carries an initializer names the real function; if
that name resolves among functions or function pointers the pair is
returned, otherwise the scan continues with the remaining macros. -/
def macroAliasScan (d : ApiData) (fname : String) : List MacroDef → Option (String × FuncDef)
  | [] => none
  | m :: rest =>
      if m.name == fname then
        match m.init with
        | some ini =>
            let real := stripSemi ini
            match findFuncNamed d.functions real with
            | some f => some (real, f)
            | none =>
                match findFuncNamed d.function_pointers real with
                | some f => some (real, f)
                | none => macroAliasScan d fname rest
        | none => macroAliasScan d fname rest
      else macroAliasScan d fname rest

/-- find_real_function_definition: macro aliases first, then direct
function lookup, then function-pointer lookup, else none. -/
def find_real_function_definition (fname : String) (d : ApiData) : Option (String × FuncDef) :=
  match macroAliasScan d fname d.macros with
  | some r => some r
  | none =>
      match findFuncNamed d.functions fname with
      | some f => some (fname, f)
      | none =>
          match findFuncNamed d.function_pointers fname with
          | some f => some (fname, f)
          | none => none

/-! ## Wrapper assembly (generate_binding_function) -/

/-- One emitted statement of a generated wrapper body, in emission
order.  arityCheck n stands for the block
`if (argc < n) return throw_error("Insufficient arguments");`,
retHandler for a generate_*_return block (each of which ends in a C
return statement), freeStr for a `free(name);` line. -/
inductive WStmt where
  | arityCheck (n : Nat)
  | argParse (c : ArgParseCode)
  | callNative (fname : String)
  | retHandler (r : RetCode)
  | freeStr (nm : String)
  | retUndefined
  deriving DecidableEq

/-- Python: `arg.get('name', f"arg{i}")`. -/
def argNameOf (i : Nat) (a : FuncArg) : String := a.name.getD ("arg" ++ toString i)

/-- Python: parse_type(arg['type']) with the void default when the key
is absent. -/
def argTypeOf (a : FuncArg) : String × TypeMeta :=
  match a.type with
  | some t => parseType t
  | none => ("void", voidMeta)

/-- The single-void-parameter erasure:
`if len(args) == 1 and is_void_type(...): args = []`. -/
def stripVoidArgs (args : List FuncArg) : List FuncArg :=
  match args with
  | [a] => if is_void_type (argTypeOf a).1 then [] else args
  | _ => args

/-- Index-decorating helper for the `for i, arg in enumerate(args)` loop. -/
def enumFrom : Nat → List α → List (Nat × α)
  | _, [] => []
  | i, x :: xs => (i, x) :: enumFrom (i + 1) xs

/-- The per-argument parse blocks of a wrapper, in declaration order. -/
def argCodes (args : List FuncArg) (d : ApiData) : List ArgParseCode :=
  (enumFrom 0 args).map
    (fun p => generate_arg_parsing p.1 (argNameOf p.1 p.2) (argTypeOf p.2).1 (argTypeOf p.2).2 d)

/-- string_arg_names: the names of the arguments whose type is a string
pointer, collected in declaration order. -/
def stringArgNames (args : List FuncArg) : List String :=
  (enumFrom 0 args).filterMap
    (fun p => if is_string_pointer (argTypeOf p.2).1 then some (argNameOf p.1 p.2) else none)

/-- The native call, return handling and free section of a wrapper
(everything after the argument parsing).  For a void return the frees
precede the final return statement; for a non-void return the
generate_*_return block (which ends in a C return) is emitted first and
the free lines are appended after it, exactly as in the source. -/
def wrapperTail (realName : String) (rdef : FuncDef) (d : ApiData) : List WStmt :=
  let retPair :=
    match rdef.type with
    | some t => parseType t
    | none => ("void", voidMeta)
  let args := stripVoidArgs rdef.args
  let frees := (stringArgNames args).map WStmt.freeStr
  if retPair.1 == "void" then
    [WStmt.callNative realName] ++ frees ++ [WStmt.retUndefined]
  else
    [WStmt.callNative realName, WStmt.retHandler (pickReturnCode retPair.1 retPair.2 d)] ++ frees

/-- The full statement list of the wrapper emitted for a resolved
function: optional arity check, the per-argument parse blocks, then the
call/return/free tail. -/
def buildWrapper (realName : String) (rdef : FuncDef) (d : ApiData) : List WStmt :=
  let args := stripVoidArgs rdef.args
  let checks := if args.isEmpty then [] else [WStmt.arityCheck args.length]
  checks ++ (argCodes args d).map WStmt.argParse ++ wrapperTail realName rdef d

/-- generate_binding_function: resolves the requested name and emits
the wrapper, or nothing (the empty string in the source) when the name
does not resolve. -/
def generate_binding_function (func : FuncDef) (d : ApiData) : Option (List WStmt) :=
  (find_real_function_definition func.name d).map (fun p => buildWrapper p.1 p.2 d)

/-! ## Scripted values and the runtime semantics of a generated wrapper

JVal models a jerry_value_t as seen through the predicates the emitted
code uses (jerry_value_is_number and friends); numbers are modelled as
integers since the wrappers only compare and cast them. -/

/-- A scripted (JerryScript) value. -/
inductive JVal where
  | undefined
  | boolean (b : Bool)
  | num (n : Int)
  | str (s : String)
  | obj (props : List (String × JVal))

def jerry_value_is_number : JVal → Bool
  | .num _ => true
  | _ => false

def jerry_value_is_object : JVal → Bool
  | .obj _ => true
  | _ => false

def jerry_value_is_string : JVal → Bool
  | .str _ => true
  | _ => false

def jerry_value_is_boolean : JVal → Bool
  | .boolean _ => true
  | _ => false

/-- jerry_object_get: property lookup, undefined when absent. -/
def objGet : List (String × JVal) → String → JVal
  | [], _ => .undefined
  | (k, v) :: rest, key => if k == key then v else objGet rest key

/-- The argument index a parse block reads (args[index] in the emitted
C; skipVoid reads nothing and gets a dummy 0). -/
def codeIndex : ArgParseCode → Nat
  | .objectPtr i _ => i
  | .skipVoid => 0
  | .voidPtr i _ => i
  | .genericPtr i _ _ => i
  | .stringArg i _ => i
  | .colorArg i _ => i
  | .boolPermissive i _ _ => i
  | .numberArg i _ _ => i
  | .boolStrict i _ => i

/-- Validation semantics of one emitted parse block on the scripted
value it reads: none on success, or the thrown error message.  Mirrors
the checks and throw_error calls of the corresponding C block (the
out-of-memory branch of the string block is not modelled: malloc is
assumed to succeed). -/
def stepParse : ArgParseCode → JVal → Option String
  | .objectPtr i _, v =>
      match v with
      | .obj props =>
          if jerry_value_is_number (objGet props "__ptr") then none
          else some "Invalid __ptr property"
      | _ => some ("Argument " ++ toString i ++ " must be an object")
  | .skipVoid, _ => none
  | .voidPtr i _, v =>
      match v with
      | .undefined => none
      | .obj _ => none
      | .num _ => none
      | _ => some ("Argument " ++ toString i ++ " must be object or number for void*")
  | .genericPtr i _ ts, v =>
      match v with
      | .undefined => none
      | .obj _ => none
      | .num _ => none
      | _ => some ("Argument " ++ toString i ++ " must be object or number for " ++ ts)
  | .stringArg i _, v =>
      match v with
      | .str _ => none
      | _ => some ("Argument " ++ toString i ++ " must be a string")
  | .colorArg _ _, _ => none
  | .boolPermissive i _ ts, v =>
      match v with
      | .undefined => none
      | .boolean _ => none
      | .num _ => none
      | _ => some ("Argument " ++ toString i ++ " must be boolean or number for " ++ ts)
  | .numberArg i _ _, v =>
      match v with
      | .num _ => none
      | _ => some ("Argument " ++ toString i ++ " must be a number")
  | .boolStrict i _, v =>
      match v with
      | .boolean _ => none
      | _ => some ("Argument " ++ toString i ++ " must be a boolean")

/-- The heap buffer a successful parse block allocates (only the string
block mallocs). -/
def parseAllocates : ArgParseCode → Option String
  | .stringArg _ nm => some nm
  | _ => none

/-- Observable state of one wrapper invocation: which string buffers
are currently allocated, which have been freed, whether the native
function was called, and how many argument parse blocks have executed. -/
structure RunState where
  allocated : List String
  freed : List String
  nativeCalled : Bool
  processed : Nat
  deriving DecidableEq

/-- Result of running a wrapper body: a normal return (the C return
statement reached) or a thrown error, with the state at that point. -/
inductive RunResult where
  | finished (s : RunState)
  | errored (msg : String) (s : RunState)
  deriving DecidableEq

/-- Control-flow semantics of a wrapper statement list on a scripted
call with argument list args (args.length models argc; reads past the
end yield undefined as in JerryScript). -/
def runStmts : List WStmt → List JVal → RunState → RunResult
  | [], _, s => .finished s
  | .arityCheck n :: rest, args, s =>
      if args.length < n then .errored "Insufficient arguments" s
      else runStmts rest args s
  | .argParse c :: rest, args, s =>
      match stepParse c (args.getD (codeIndex c) .undefined) with
      | some msg => .errored msg { s with processed := s.processed + 1 }
      | none =>
          runStmts rest args
            { s with processed := s.processed + 1,
                     allocated := s.allocated ++ (parseAllocates c).toList }
  | .callNative _ :: rest, args, s => runStmts rest args { s with nativeCalled := true }
  | .retHandler _ :: _, _, s => .finished s
  | .retUndefined :: _, _, s => .finished s
  | .freeStr nm :: rest, args, s =>
      runStmts rest args
        { s with allocated := s.allocated.erase nm, freed := s.freed ++ [nm] }

/-- The initial state of a wrapper invocation. -/
def initRunState : RunState := ⟨[], [], false, 0⟩

/-- A free line is reachable when no preceding statement of the body
unconditionally returns; generate_*_return blocks and the final
return jerry_undefined() line do return. -/
def stmtReturns : WStmt → Bool
  | .retHandler _ => true
  | .retUndefined => true
  | _ => false

/-- The free lines that appear before the first unconditional return
of the wrapper body (the reachable ones). -/
def freesBeforeReturn : List WStmt → List String
  | [] => []
  | .freeStr nm :: rest => nm :: freesBeforeReturn rest
  | st :: rest => if stmtReturns st then [] else freesBeforeReturn rest

/-- All free lines the wrapper body contains, reachable or not. -/
def freesEmitted (l : List WStmt) : List String :=
  l.filterMap (fun st => match st with | .freeStr nm => some nm | _ => none)

/-! ## parse_lv_color (emitted C, HEADER_CODE) -/

/-- lv_color_t with the three channel bytes. -/
structure LvColor where
  red : Nat
  green : Nat
  blue : Nat
  deriving DecidableEq

/-- The C cast (uint32_t)jerry_value_as_number, modelled modularly. -/
def asUInt32 (n : Int) : Nat := (n % (2 : Int) ^ 32).toNat

/-- The C cast (uint8_t)jerry_value_as_number, modelled modularly. -/
def asUInt8 (n : Int) : Nat := (n % (2 : Int) ^ 8).toNat

/-- parse_lv_color: a number is unpacked as 0xRRGGBB; a non-object
non-number yields black; an object contributes its red/green/blue
properties, each defaulting to 0 when not a number. -/
def parse_lv_color (v : JVal) : LvColor :=
  match v with
  | .num n =>
      let val := asUInt32 n
      { red := (val >>> 16) &&& 0xFF
        green := (val >>> 8) &&& 0xFF
        blue := val &&& 0xFF }
  | .obj props =>
      { red := match objGet props "red" with | .num x => asUInt8 x | _ => 0
        green := match objGet props "green" with | .num x => asUInt8 x | _ => 0
        blue := match objGet props "blue" with | .num x => asUInt8 x | _ => 0 }
  | _ => { red := 0, green := 0, blue := 0 }

/-! ## The runtime callback registry (emitted C, HEADER_CODE)

Embedding of the callback system: callback_map_t entries keyed by
(lv_obj_t pointer, event code), bounded callback arrays, the
register/unregister native functions and the lv_event_handler dispatch.
Objects are modelled by their address (Nat), callbacks by their
jerry_value_t handle id (Nat), event codes by Int. -/

def MAX_CALLBACKS_PER_KEY : Nat := 8

/-- The LVGL constant LV_EVENT_ALL (value 0 in the collaborator
library), used as the wildcard event key. -/
def LV_EVENT_ALL : Int := 0

/-- callback_key_t. -/
structure CallbackKey where
  obj : Nat
  event : Int
  deriving DecidableEq

/-- callback_map_t: key plus the ordered callback list
(callback_count is the list length). -/
structure CallbackEntry where
  key : CallbackKey
  callbacks : List Nat
  deriving DecidableEq

/-- The uthash table callback_table, as the list of its entries; keys
are unique by construction of the operations. -/
abbrev CallbackTable := List CallbackEntry

/-- HASH_FIND on the key. -/
def hashFind (t : CallbackTable) (k : CallbackKey) : Option CallbackEntry :=
  t.find? (fun en => decide (en.key = k))

/-- Replaces the entry with the given key (in-place mutation of the
found entry in the C code). -/
def tableUpdate (t : CallbackTable) (k : CallbackKey) (e : CallbackEntry) : CallbackTable :=
  t.map (fun en => if en.key = k then e else en)

/-- Outcome of register_lv_event_handler (after its argument
validation): the new table, the thrown message if any, whether
lv_obj_add_event_cb was invoked (armed), and whether the
jerry_value_copy of the callback was released (freedCopy). -/
structure RegisterResult where
  table : CallbackTable
  thrown : Option String
  armed : Bool
  freedCopy : Bool
  deriving DecidableEq

/-- register_lv_event_handler, from the point where obj, event and the
copied callback handle are in hand: find the entry; if absent create it
with count 0 and arm the native subscription; then append when below
MAX_CALLBACKS_PER_KEY (a fresh entry has count 0, so its append always
succeeds), otherwise free the copy and throw. -/
def register_lv_event_handler (t : CallbackTable) (obj : Nat) (event : Int)
    (f : Nat) : RegisterResult :=
  let key : CallbackKey := ⟨obj, event⟩
  match hashFind t key with
  | some entry =>
      if entry.callbacks.length < MAX_CALLBACKS_PER_KEY then
        { table := tableUpdate t key ⟨key, entry.callbacks ++ [f]⟩
          thrown := none, armed := false, freedCopy := false }
      else
        { table := t, thrown := some "Too many callbacks",
          armed := false, freedCopy := true }
  | none =>
      { table := t ++ [⟨key, [f]⟩], thrown := none,
        armed := true, freedCopy := false }

/-- Outcome of unregister_lv_event_handler: the new table and the
callback handles that were released. -/
structure UnregisterResult where
  table : CallbackTable
  freedHandles : List Nat
  deriving DecidableEq

/-- unregister_lv_event_handler: removes the whole entry for the exact
key, releasing every callback; a missing key is a silent no-op. -/
def unregister_lv_event_handler (t : CallbackTable) (obj : Nat) (event : Int) :
    UnregisterResult :=
  let key : CallbackKey := ⟨obj, event⟩
  match hashFind t key with
  | some entry =>
      { table := t.filter (fun en => !(decide (en.key = key)))
        freedHandles := entry.callbacks }
  | none => { table := t, freedHandles := [] }

/-- lv_event_handler: exact-key lookup, wildcard LV_EVENT_ALL fallback,
then one event object {type: event, target: target} passed to every
callback of the entry in order (each jerry_call result is freed and
discarded).  An invocation is recorded as
(callback, event type, event target). -/
def lv_event_handler (t : CallbackTable) (target : Nat) (event : Int) :
    List (Nat × Int × Nat) :=
  let entry :=
    match hashFind t ⟨target, event⟩ with
    | some e => some e
    | none => hashFind t ⟨target, LV_EVENT_ALL⟩
  match entry with
  | none => []
  | some e => e.callbacks.map (fun cb => (cb, event, target))

/-- A script-visible registry operation. -/
inductive RegOp where
  | doRegister (obj : Nat) (event : Int) (f : Nat)
  | doUnregister (obj : Nat) (event : Int)

/-- Runs a history of registrations and unregistrations from a table,
collecting the key of every native subscription armed along the way
(every lv_obj_add_event_cb call). -/
def runOps : CallbackTable → List RegOp → CallbackTable × List CallbackKey
  | t, [] => (t, [])
  | t, .doRegister o e f :: rest =>
      let r := register_lv_event_handler t o e f
      let next := runOps r.table rest
      (next.1, (if r.armed then [⟨o, e⟩] else []) ++ next.2)
  | t, .doUnregister o e :: rest =>
      runOps (unregister_lv_event_handler t o e).table rest

/-! ## Curated-list loaders -/

/-- A line survives loading when its stripped form is nonempty and not
a comment: `if line and not line.startswith("#")`. -/
def validLine (l : String) : Bool := !(l == "") && !(strStartsWith l "#")

/-- Python set add on the insertion-ordered membership list. -/
def insertSet (s : List String) (x : String) : List String :=
  if s.contains x then s else s ++ [x]

/-- The loop of load_export_functions: per raw line, strip it, skip
invalid lines, append first occurrences to the output list and add
every valid line to the membership set. -/
def loadExportLoop : List String → List String → List String → List String × List String
  | [], fns, out => (fns, out)
  | raw :: rest, fns, out =>
      let l := pyStrip raw
      if validLine l then
        loadExportLoop rest (insertSet fns l) (if fns.contains l then out else out ++ [l])
      else loadExportLoop rest fns out

/-- load_export_functions on the raw lines of export_functions.txt:
returns the loaded set (insertion-ordered) and the deduplicated lines
the loader writes back over the file. -/
def load_export_functions (fileLines : List String) : List String × List String :=
  loadExportLoop fileLines [] []

/-- The export file content after loading (the loader rewrites it). -/
def exportFileAfter (fileLines : List String) : List String :=
  (load_export_functions fileLines).2

/-- The loop of load_blacklist_functions: builds the set only. -/
def loadBlacklistLoop : List String → List String → List String
  | [], s => s
  | raw :: rest, s =>
      let l := pyStrip raw
      if validLine l then loadBlacklistLoop rest (insertSet s l)
      else loadBlacklistLoop rest s

/-- load_blacklist_functions on the raw lines of
blacklist_functions.txt: returns the loaded set.  The function body
contains no write call. -/
def load_blacklist_functions (fileLines : List String) : List String :=
  loadBlacklistLoop fileLines []

/-- The blacklist file content after loading: load_blacklist_functions
only reads the file, so it is unchanged. -/
def blacklistFileAfter (fileLines : List String) : List String := fileLines

/-- The stripped, comment-and-blank-filtered lines of a list file. -/
def cleanedLines (fileLines : List String) : List String :=
  (fileLines.map pyStrip).filter validLine

/-- Keep-first deduplication with an explicit seen set (specification
function used to state what in-place deduplication must produce). -/
def dedupFirstAux : List String → List String → List String
  | _, [] => []
  | seen, x :: xs =>
      if seen.contains x then dedupFirstAux seen xs
      else x :: dedupFirstAux (seen ++ [x]) xs

/-- Keep-first deduplication of a list of names. -/
def dedupFirst (l : List String) : List String := dedupFirstAux [] l

/-! ## Concrete API descriptions used as test inputs -/

/-- The api description with no entries. -/
def emptyApi : ApiData := ⟨[], [], [], [], []⟩

/-- The descriptor of const char*. -/
def constCharPtrT : TypeDesc := .pointer ["const"] (.named .primitive [] "char")

/-- The descriptor of int. -/
def intT : TypeDesc := .named .primitive [] "int"

/-- A function with one string parameter and a string (non-void)
return type. -/
def fRetStrDef : FuncDef := ⟨"f_ret_str", some constCharPtrT, [⟨some "txt", some constCharPtrT⟩]⟩

/-- A function with one string parameter and void return type. -/
def fVoidDef : FuncDef := ⟨"f_void", none, [⟨some "txt", some constCharPtrT⟩]⟩

/-- Api description holding the two string-parameter functions. -/
def c1data : ApiData := ⟨[], [], [], [fRetStrDef, fVoidDef], []⟩

/-- A function with one int parameter. -/
def setXDef : FuncDef := ⟨"set_x", none, [⟨some "v", some intT⟩]⟩

/-- A function whose single parameter is void. -/
def gVoidDef : FuncDef := ⟨"g_void", none, [⟨none, some (.named .primitive [] "void")⟩]⟩

/-- Api description holding the arity-check test functions. -/
def c4data : ApiData := ⟨[], [], [], [setXDef, gVoidDef], []⟩

/-- A function with a string parameter followed by an int parameter. -/
def w2Def : FuncDef := ⟨"w2", none, [⟨some "s", some constCharPtrT⟩, ⟨some "n", some intT⟩]⟩

/-- Api description holding the short-circuit test function. -/
def c8data : ApiData := ⟨[], [], [], [w2Def], []⟩

/-- Api description with one enum and three typedefs: a void-pointer
alias, a stdlib-scalar alias and a struct alias. -/
def c7data : ApiData :=
  ⟨["lv_align_t"],
   [("lv_hdl_t", .pointer [] .null),
    ("lv_coord_t", .named .stdlib [] "int16_t"),
    ("lv_sty_t", .named .other [] "lv_style_t")],
   [], [], []⟩

/-- A callback table whose single entry is at the callback bound. -/
def fullEntryTable : CallbackTable := [⟨⟨2, 3⟩, [1, 2, 3, 4, 5, 6, 7, 8]⟩]

/-! ## Claim theorems -/

/-- C1: the claim states that the freshly allocated string buffers are
freed on every exit path reached after the native call returns, for
void and non-void return types alike.  The generator emits the free
lines after the generate_*_return block, which itself ends in a C
return statement, so for a non-void return the frees are unreachable
dead code and the buffer leaks: on the concrete one-string-parameter
function with a string return, the wrapper contains the free line but
no free line is reachable before the return, and executing the wrapper
finishes with the buffer still allocated and never freed.  For the void
return the frees are reachable and executed, as the claim says. -/
theorem c1_string_free_unreachable_for_nonvoid_return :
    generate_binding_function fRetStrDef c1data =
      some [WStmt.arityCheck 1, .argParse (.stringArg 0 "txt"),
            .callNative "f_ret_str", .retHandler .stringRet, .freeStr "txt"] ∧
    freesEmitted ((generate_binding_function fRetStrDef c1data).getD []) = ["txt"] ∧
    freesBeforeReturn ((generate_binding_function fRetStrDef c1data).getD []) = [] ∧
    runStmts ((generate_binding_function fRetStrDef c1data).getD [])
        [.str "hi"] initRunState = .finished ⟨["txt"], [], true, 1⟩ ∧
    freesBeforeReturn ((generate_binding_function fVoidDef c1data).getD []) = ["txt"] ∧
    runStmts ((generate_binding_function fVoidDef c1data).getD [])
        [.str "hi"] initRunState = .finished ⟨[], ["txt"], true, 1⟩ := by
  decide

/-- C2 counterexample: the claim says one native subscription is armed
per distinct key over the whole history of registrations and
unregistrations.  The history register, unregister, register on the
same key (1, 5) arms the subscription twice, because unregistration
deletes the table entry without removing the native event callback and
the next registration re-arms it. -/
theorem c2_rearm_counterexample :
    ((runOps [] [.doRegister 1 5 7, .doUnregister 1 5, .doRegister 1 5 9]).2.filter
        (fun k => decide (k = ⟨1, 5⟩))).length = 2 ∧
    ((runOps [] [.doRegister 1 5 7, .doUnregister 1 5, .doRegister 1 5 9]).2.filter
        (fun k => decide (k = ⟨1, 5⟩))).length ≠ 1 := by
  decide

/-- C3 counterexample: the claim says the numeric strategy is chosen
exactly when the type name is one of the fixed numeric primitive
names.  The classifier tests substring containment, so lv_point_t
(which contains int but is not in the list and matches none of the
earlier rules) is also classified numeric. -/
theorem c3_substring_counterexample :
    generate_arg_parsing 0 "p"
        (parseType (.named .other [] "lv_point_t")).1
        (parseType (.named .other [] "lv_point_t")).2 emptyApi =
      .numberArg 0 "p" "lv_point_t" ∧
    number_type_names.contains "lv_point_t" = false := by
  decide

/-- C4 counterexample: the claim says a call whose argument count
differs from the declared parameter count fails with an argument-count
error, and a single-void-parameter function requires exactly zero
arguments.  The emitted check only rejects argc below the count: the
one-parameter wrapper called with two arguments completes normally and
calls the native function, and the single-void-parameter wrapper
(whose parameter list is erased) has no check at all and completes on a
three-argument call. -/
theorem c4_excess_arguments_accepted_counterexample :
    runStmts ((generate_binding_function setXDef c4data).getD [])
        [.num 1, .num 2] initRunState = .finished ⟨[], [], true, 1⟩ ∧
    runStmts ((generate_binding_function gVoidDef c4data).getD [])
        [.num 1, .num 2, .num 3] initRunState = .finished ⟨[], [], true, 0⟩ := by
  decide

/-- C9 counterexample: the claim says both curated lists are
deduplicated in place, rewriting each file.  The export loader rewrites
its file deduplicated, but the blacklist loader only reads its file:
on the file content with a duplicated name the blacklist file is left
holding the duplicate while deduplication would keep one occurrence. -/
theorem c9_blacklist_not_rewritten_counterexample :
    blacklistFileAfter ["f", "f"] = ["f", "f"] ∧
    dedupFirst (cleanedLines ["f", "f"]) = ["f"] ∧
    exportFileAfter ["f", "f"] = ["f"] ∧
    (["f", "f"] : List String) ≠ ["f"] := by
  decide

/-! ## Registry lemmas -/

/-- Updating the found key puts the replacement where the lookup finds
it. -/
lemma hashFind_tableUpdate_self (t : CallbackTable) (k : CallbackKey)
    (en e : CallbackEntry) (hfound : hashFind t k = some en) (hk : e.key = k) :
    hashFind (tableUpdate t k e) k = some e := by
  induction t with
  | nil => simp [hashFind] at hfound
  | cons a rest ih =>
      by_cases ha : a.key = k
      · simp [hashFind, tableUpdate, ha, hk]
      · have hfound2 : hashFind rest k = some en := by
          simpa [hashFind, ha] using hfound
        simpa [hashFind, tableUpdate, ha] using ih hfound2

/-- At the callback bound, registration throws, frees the copied
handle and leaves the table untouched. -/
lemma register_at_capacity (t : CallbackTable) (o : Nat) (e : Int) (f : Nat)
    (en : CallbackEntry) (hfound : hashFind t ⟨o, e⟩ = some en)
    (hfull : MAX_CALLBACKS_PER_KEY ≤ en.callbacks.length) :
    register_lv_event_handler t o e f =
      ⟨t, some "Too many callbacks", false, true⟩ := by
  simp [register_lv_event_handler, hfound, Nat.not_lt.mpr hfull]

/-- C2 (amended): registration arms the native subscription exactly
when no entry exists for the key at that moment — once per entry
creation, not once per key over the whole history, since the entry may
be removed and recreated.  While an entry exists further registrations
arm nothing; below the bound of 8 the callback is appended to the
entry; at the bound the registration throws the too-many-callbacks
error, frees the copied handle and registers nothing; and the
per-entry bound of 8 is preserved by every registration. -/
theorem c2_register_arming_and_bound (t : CallbackTable) (o : Nat) (e : Int) (f : Nat) :
    (hashFind t ⟨o, e⟩ = none → (register_lv_event_handler t o e f).armed = true) ∧
    (∀ en, hashFind t ⟨o, e⟩ = some en →
      (register_lv_event_handler t o e f).armed = false) ∧
    (∀ en, hashFind t ⟨o, e⟩ = some en →
      MAX_CALLBACKS_PER_KEY ≤ en.callbacks.length →
      register_lv_event_handler t o e f =
        ⟨t, some "Too many callbacks", false, true⟩) ∧
    (∀ en, hashFind t ⟨o, e⟩ = some en →
      en.callbacks.length < MAX_CALLBACKS_PER_KEY →
      (register_lv_event_handler t o e f).thrown = none ∧
      hashFind (register_lv_event_handler t o e f).table ⟨o, e⟩ =
        some ⟨⟨o, e⟩, en.callbacks ++ [f]⟩) ∧
    ((∀ en ∈ t, en.callbacks.length ≤ MAX_CALLBACKS_PER_KEY) →
      ∀ en ∈ (register_lv_event_handler t o e f).table,
        en.callbacks.length ≤ MAX_CALLBACKS_PER_KEY) := by
  refine ⟨?_, ?_, ?_, ?_, ?_⟩
  · intro hn
    simp [register_lv_event_handler, hn]
  · intro en hf
    by_cases hroom : en.callbacks.length < MAX_CALLBACKS_PER_KEY
    · simp [register_lv_event_handler, hf, hroom]
    · simp [register_lv_event_handler, hf, hroom]
  · intro en hf hfull
    exact register_at_capacity t o e f en hf hfull
  · intro en hf hroom
    refine ⟨by simp [register_lv_event_handler, hf, hroom], ?_⟩
    have hupd := hashFind_tableUpdate_self t ⟨o, e⟩ en
      ⟨⟨o, e⟩, en.callbacks ++ [f]⟩ hf rfl
    simpa [register_lv_event_handler, hf, hroom] using hupd
  · intro hbound en hmem
    rcases hf : hashFind t ⟨o, e⟩ with _ | en0
    · simp only [register_lv_event_handler, hf] at hmem
      rcases List.mem_append.mp hmem with h | h
      · exact hbound en h
      · simp at h
        simp [h, MAX_CALLBACKS_PER_KEY]
    · by_cases hroom : en0.callbacks.length < MAX_CALLBACKS_PER_KEY
      · simp only [register_lv_event_handler, hf, hroom, if_pos] at hmem
        simp only [tableUpdate, List.mem_map] at hmem
        obtain ⟨x, hx, hxe⟩ := hmem
        by_cases hkx : x.key = (⟨o, e⟩ : CallbackKey)
        · have : en = ⟨⟨o, e⟩, en0.callbacks ++ [f]⟩ := by
            rw [← hxe]; simp [hkx]
          rw [this]
          simp only [List.length_append, List.length_singleton]
          omega
        · have : en = x := by rw [← hxe]; simp [hkx]
          rw [this]; exact hbound x hx
      · have := register_at_capacity t o e f en0 hf (Nat.le_of_not_lt hroom)
        rw [this] at hmem
        exact hbound en hmem

/-- C2 witness: on the empty table a registration arms; on a table
already holding the key a second registration does not re-arm; on a
full entry the registration throws and leaves the table unchanged. -/
theorem c2_register_arming_and_bound_witness :
    (register_lv_event_handler [] 1 5 7).armed = true ∧
    (register_lv_event_handler [⟨⟨1, 5⟩, [7]⟩] 1 5 8).armed = false ∧
    register_lv_event_handler fullEntryTable 2 3 99 =
      ⟨fullEntryTable, some "Too many callbacks", false, true⟩ :=
  ⟨(c2_register_arming_and_bound [] 1 5 7).1 (by decide),
   (c2_register_arming_and_bound [⟨⟨1, 5⟩, [7]⟩] 1 5 8).2.1 ⟨⟨1, 5⟩, [7]⟩ (by decide),
   (c2_register_arming_and_bound fullEntryTable 2 3 99).2.2.1
     ⟨⟨2, 3⟩, [1, 2, 3, 4, 5, 6, 7, 8]⟩ (by decide) (by decide)⟩

/-- C10: when the entry for the key already holds the maximum of 8
callbacks, registration fails atomically: the result is exactly the
thrown too-many-callbacks error with the copied handle freed and the
table returned unchanged — the entry keeps its callback list and count
and no entry is added or removed. -/
theorem c10_capacity_failure_atomic (t : CallbackTable) (o : Nat) (e : Int)
    (f : Nat) (en : CallbackEntry) (hfound : hashFind t ⟨o, e⟩ = some en)
    (hfull : MAX_CALLBACKS_PER_KEY ≤ en.callbacks.length) :
    register_lv_event_handler t o e f =
      ⟨t, some "Too many callbacks", false, true⟩ :=
  register_at_capacity t o e f en hfound hfull

/-- C10 witness: the concrete full entry. -/
theorem c10_capacity_failure_atomic_witness :
    register_lv_event_handler fullEntryTable 2 3 11 =
      ⟨fullEntryTable, some "Too many callbacks", false, true⟩ :=
  c10_capacity_failure_atomic fullEntryTable 2 3 11
    ⟨⟨2, 3⟩, [1, 2, 3, 4, 5, 6, 7, 8]⟩ (by decide) (by decide)

/-- C5: dispatch looks up the exact key, falls back to the wildcard
LV_EVENT_ALL key for the object, does nothing when both are absent,
and otherwise invokes every callback of the found entry in
registration order, passing each the same event description carrying
the actual event kind and the object identity. -/
theorem c5_dispatch_lookup_order (t : CallbackTable) (o : Nat) (ev : Int) :
    (hashFind t ⟨o, ev⟩ = none → hashFind t ⟨o, LV_EVENT_ALL⟩ = none →
      lv_event_handler t o ev = []) ∧
    (∀ en, hashFind t ⟨o, ev⟩ = some en →
      lv_event_handler t o ev = en.callbacks.map (fun cb => (cb, ev, o))) ∧
    (∀ en, hashFind t ⟨o, ev⟩ = none → hashFind t ⟨o, LV_EVENT_ALL⟩ = some en →
      lv_event_handler t o ev = en.callbacks.map (fun cb => (cb, ev, o))) ∧
    (∀ p ∈ lv_event_handler t o ev, p.2 = (ev, o)) := by
  refine ⟨?_, ?_, ?_, ?_⟩
  · intro h1 h2
    simp [lv_event_handler, h1, h2]
  · intro en h1
    simp [lv_event_handler, h1]
  · intro en h1 h2
    simp [lv_event_handler, h1, h2]
  · intro p hp
    rcases h1 : hashFind t ⟨o, ev⟩ with _ | en
    · rcases h2 : hashFind t ⟨o, LV_EVENT_ALL⟩ with _ | en
      · simp [lv_event_handler, h1, h2] at hp
      · simp only [lv_event_handler, h1, h2, List.mem_map] at hp
        obtain ⟨cb, _, hcb⟩ := hp
        rw [← hcb]
    · simp only [lv_event_handler, h1, List.mem_map] at hp
      obtain ⟨cb, _, hcb⟩ := hp
      rw [← hcb]

/-- C5 witness: a table holding only the wildcard entry for object 7
dispatches an event of kind 3 to both callbacks in order, with the
actual event kind in the event description. -/
theorem c5_dispatch_lookup_order_witness :
    lv_event_handler [⟨⟨7, 0⟩, [4, 5]⟩] 7 3 = [(4, 3, 7), (5, 3, 7)] :=
  (c5_dispatch_lookup_order [⟨⟨7, 0⟩, [4, 5]⟩] 7 3).2.2.1
    ⟨⟨7, 0⟩, [4, 5]⟩ (by decide) (by decide)

/-! ## Color marshalling -/

/-- Bitmask by 0xFF is reduction modulo 256. -/
lemma land_ff_eq_mod (x : Nat) : x &&& 0xFF = x % 256 := by
  have h := Nat.and_pow_two_sub_one_eq_mod x 8
  norm_num at h
  exact h

/-- C6: the packed numeric color 0xRRGGBB and the object form with the
same numeric red/green/blue fields produce the same three channel
bytes, for every byte triple; and a scripted value that is neither a
number nor an object parses to black (0, 0, 0) rather than an error. -/
theorem c6_color_channel_agreement (R G B : Nat) (v : JVal)
    (hR : R < 256) (hG : G < 256) (hB : B < 256)
    (hn : jerry_value_is_number v = false)
    (ho : jerry_value_is_object v = false) :
    parse_lv_color (.num ((R * 65536 + G * 256 + B : Nat) : Int)) = ⟨R, G, B⟩ ∧
    parse_lv_color (.obj [("red", .num (R : Int)), ("green", .num (G : Int)),
                          ("blue", .num (B : Int))]) = ⟨R, G, B⟩ ∧
    parse_lv_color v = ⟨0, 0, 0⟩ := by
  refine ⟨?_, ?_, ?_⟩
  · have hval : asUInt32 ((R * 65536 + G * 256 + B : Nat) : Int) =
        R * 65536 + G * 256 + B := by
      unfold asUInt32
      omega
    show LvColor.mk _ _ _ = _
    simp only [parse_lv_color, hval, Nat.shiftRight_eq_div_pow, land_ff_eq_mod]
    have e1 : (R * 65536 + G * 256 + B) / 2 ^ 16 % 256 = R := by omega
    have e2 : (R * 65536 + G * 256 + B) / 2 ^ 8 % 256 = G := by omega
    have e3 : (R * 65536 + G * 256 + B) % 256 = B := by omega
    rw [e1, e2, e3]
  · have h8 : ∀ x : Nat, x < 256 → asUInt8 (x : Int) = x := by
      intro x hx
      unfold asUInt8
      omega
    have hobj : parse_lv_color (.obj [("red", .num (R : Int)), ("green", .num (G : Int)),
        ("blue", .num (B : Int))]) =
        ⟨asUInt8 (R : Int), asUInt8 (G : Int), asUInt8 (B : Int)⟩ := rfl
    rw [hobj, h8 R hR, h8 G hG, h8 B hB]
  · cases v <;> simp_all [parse_lv_color, jerry_value_is_number, jerry_value_is_object]

/-- C6 witness: the triple 0x1E/0x90/0xFF of the specification and the
string value as the neither-number-nor-object shape. -/
theorem c6_color_channel_agreement_witness :
    parse_lv_color (.num ((30 * 65536 + 144 * 256 + 255 : Nat) : Int)) = ⟨30, 144, 255⟩ ∧
    parse_lv_color (.obj [("red", .num ((30 : Nat) : Int)), ("green", .num ((144 : Nat) : Int)),
                          ("blue", .num ((255 : Nat) : Int))]) = ⟨30, 144, 255⟩ ∧
    parse_lv_color (.str "x") = ⟨0, 0, 0⟩ :=
  c6_color_channel_agreement 30 144 255 (.str "x")
    (by decide) (by decide) (by decide) (by decide) (by decide)

/-! ## Alias resolution lemmas -/

/-- A name absent from the typedef list scans to none. -/
lemma baseTypeScan_of_filter_nil (nm : String) (l : List (String × TypeDesc))
    (h : l.filter (fun p => p.1 == nm) = []) : baseTypeScan nm l = none := by
  induction l with
  | nil => rfl
  | cons a rest ih =>
      obtain ⟨n, ty⟩ := a
      by_cases hb : n = nm
      · simp [List.filter_cons, hb] at h
      · have hb2 : (n == nm) = false := by simp [hb]
        simp only [List.filter_cons, hb2, Bool.false_eq_true, if_false] at h
        simp only [baseTypeScan, hb2, Bool.false_eq_true, if_false]
        exact ih h

/-- When the typedef list holds exactly one entry for a name, the scan
result is decided by the branch conditions on that one entry. -/
lemma baseTypeScan_of_filter_singleton (nm : String) (ty : TypeDesc)
    (l : List (String × TypeDesc))
    (h : l.filter (fun p => p.1 == nm) = [(nm, ty)]) :
    baseTypeScan nm l =
      (if (parseType ty).2.is_pointer && baseIsVoid (parseType ty).2 then
        some "uintptr_t"
       else if (parseType ty).2.is_primitive || (parseType ty).2.is_stdlib then
        some (parseType ty).1
       else none) := by
  induction l with
  | nil => simp at h
  | cons a rest ih =>
      obtain ⟨n, t⟩ := a
      by_cases hb : n = nm
      · have hb2 : (n == nm) = true := by simp [hb]
        simp only [List.filter_cons, hb2, if_true] at h
        have ht : t = ty := by
          have hpair := List.head_eq_of_cons_eq h
          injection hpair
        have hrest : rest.filter (fun p => p.1 == nm) = [] :=
          List.tail_eq_of_cons_eq h
        subst ht
        simp only [baseTypeScan, hb2, if_true]
        by_cases hv : ((parseType t).2.is_pointer && baseIsVoid (parseType t).2) = true
        · simp [hv]
        · have hv2 : ((parseType t).2.is_pointer && baseIsVoid (parseType t).2) = false := by
            simpa using hv
          by_cases hp : ((parseType t).2.is_primitive || (parseType t).2.is_stdlib) = true
          · simp [hv2, hp]
          · have hp2 : ((parseType t).2.is_primitive || (parseType t).2.is_stdlib) = false := by
              simpa using hp
            simp [hv2, hp2, baseTypeScan_of_filter_nil nm rest hrest]
      · have hb2 : (n == nm) = false := by simp [hb]
        simp only [List.filter_cons, hb2, Bool.false_eq_true, if_false] at h
        simp only [baseTypeScan, hb2, Bool.false_eq_true, if_false]
        exact ih h

/-- C7: alias base-type resolution.  Every enumeration name resolves to
the int base type; for a name with exactly one typedef entry, an alias
whose parsed underlying type is a pointer with a void pointee resolves
to the address-width integer uintptr_t, an alias whose underlying type
is a primitive or standard-library scalar resolves to that scalar type
string, and any other alias resolves to none; a non-enum name with no
typedef entry also resolves to none. -/
theorem c7_typedef_base_type_resolution (nm : String) (d : ApiData) (ty : TypeDesc) :
    (is_enum_type nm d = true → get_typedef_base_type nm d = some "int") ∧
    (is_enum_type nm d = false →
      d.typedefs.filter (fun p => p.1 == nm) = [(nm, ty)] →
      ((parseType ty).2.is_pointer = true → baseIsVoid (parseType ty).2 = true →
        get_typedef_base_type nm d = some "uintptr_t") ∧
      (((parseType ty).2.is_pointer && baseIsVoid (parseType ty).2) = false →
        ((parseType ty).2.is_primitive = true ∨ (parseType ty).2.is_stdlib = true) →
        get_typedef_base_type nm d = some (parseType ty).1) ∧
      (((parseType ty).2.is_pointer && baseIsVoid (parseType ty).2) = false →
        (parseType ty).2.is_primitive = false → (parseType ty).2.is_stdlib = false →
        get_typedef_base_type nm d = none)) ∧
    (is_enum_type nm d = false →
      d.typedefs.filter (fun p => p.1 == nm) = [] →
      get_typedef_base_type nm d = none) := by
  refine ⟨?_, ?_, ?_⟩
  · intro he
    simp [get_typedef_base_type, he]
  · intro he hf
    have hscan := baseTypeScan_of_filter_singleton nm ty d.typedefs hf
    refine ⟨?_, ?_, ?_⟩
    · intro hptr hvoid
      simp [get_typedef_base_type, he, hscan, hptr, hvoid]
    · intro hnv hp
      have hp2 : ((parseType ty).2.is_primitive || (parseType ty).2.is_stdlib) = true := by
        rcases hp with hp | hp <;> simp [hp]
      simp [get_typedef_base_type, he, hscan, hnv, hp2]
    · intro hnv hp hs
      simp [get_typedef_base_type, he, hscan, hnv, hp, hs]
  · intro he hf
    simp [get_typedef_base_type, he, baseTypeScan_of_filter_nil nm d.typedefs hf]

/-- C7 witness: on the concrete description, the enum resolves to int,
the void-pointer alias to uintptr_t, the stdlib scalar alias to its
scalar, the struct alias to none, and an unknown name to none. -/
theorem c7_typedef_base_type_resolution_witness :
    get_typedef_base_type "lv_align_t" c7data = some "int" ∧
    get_typedef_base_type "lv_hdl_t" c7data = some "uintptr_t" ∧
    get_typedef_base_type "lv_coord_t" c7data = some "int16_t" ∧
    get_typedef_base_type "lv_sty_t" c7data = none ∧
    get_typedef_base_type "missing" c7data = none :=
  ⟨(c7_typedef_base_type_resolution "lv_align_t" c7data .null).1 (by decide),
   ((c7_typedef_base_type_resolution "lv_hdl_t" c7data (.pointer [] .null)).2.1
      (by decide) (by decide)).1 (by decide) (by decide),
   ((c7_typedef_base_type_resolution "lv_coord_t" c7data
      (.named .stdlib [] "int16_t")).2.1 (by decide) (by decide)).2.1
      (by decide) (Or.inr (by decide)),
   ((c7_typedef_base_type_resolution "lv_sty_t" c7data
      (.named .other [] "lv_style_t")).2.1 (by decide) (by decide)).2.2
      (by decide) (by decide) (by decide),
   (c7_typedef_base_type_resolution "missing" c7data .null).2.2
      (by decide) (by decide)⟩

/-- C3 (amended): when none of the earlier pointer/void/string/color/
boolean rules matched and the type name has no typedef or enum
resolution, the classifier chooses the numeric strategy exactly when
one of the fixed numeric primitive names occurs as a substring of the
space-stripped type signature — substring containment, not name
equality, so names that merely contain a numeric token (such as
lv_point_t, which contains int) also map to numeric. -/
theorem c3_numeric_is_substring_match (i : Nat) (nm s : String) (m : TypeMeta) (d : ApiData)
    (h1 : is_lv_obj_pointer (stripSpaces s) = false)
    (h2 : is_void_type (stripSpaces s) = false)
    (h3 : is_void_pointer (stripSpaces s) = false)
    (h4 : is_object_pointer (stripSpaces s) = false)
    (h5 : is_string_pointer (stripSpaces s) = false)
    (h6 : is_lv_color_t (stripSpaces s) = false)
    (h7 : (stripSpaces s == "bool") = false)
    (h8 : get_typedef_base_type (m.type_name.getD "") d = none) :
    generate_arg_parsing i nm s m d = .numberArg i nm (stripSpaces s) ↔
      is_number_type (stripSpaces s) = true := by
  by_cases hn : is_number_type (stripSpaces s) = true
  · simp [generate_arg_parsing, h1, h2, h3, h4, h5, h6, h7, h8, hn]
  · have hn2 : is_number_type (stripSpaces s) = false := by simpa using hn
    by_cases htn : m.type_name.getD "" = ""
    · rw [htn] at h8
      simp [generate_arg_parsing, h1, h2, h3, h4, h5, h6, h7, h8, hn2, htn]
    · simp [generate_arg_parsing, h1, h2, h3, h4, h5, h6, h7, h8, hn2, htn]

/-- C3 witness for the amended claim: lv_point_t satisfies every
hypothesis with the empty api description and is classified numeric
because int occurs inside it. -/
theorem c3_numeric_is_substring_match_witness :
    generate_arg_parsing 0 "p" "lv_point_t"
        (TypeMeta.mk false false none (some "lv_point_t") false false) emptyApi =
      .numberArg 0 "p" "lv_point_t" :=
  (c3_numeric_is_substring_match 0 "p" "lv_point_t"
      (TypeMeta.mk false false none (some "lv_point_t") false false) emptyApi
      (by decide) (by decide) (by decide) (by decide) (by decide) (by decide)
      (by decide) (by decide)).mpr (by decide)

/-- C4 (amended): a wrapper generated for a resolved function with at
least one remaining parameter begins with the arity check against the
exact parameter count, but the check is only a lower bound: a call
with fewer arguments fails with the insufficient-arguments error,
while a call with the declared count or more passes the check (extra
arguments are ignored, never an error); and a function whose single
parameter is void (or which has no parameters) gets no arity check at
all, so it accepts any argument count. -/
theorem c4_arity_check_is_lower_bound (f : FuncDef) (d : ApiData)
    (rn : String) (rdef : FuncDef)
    (hfind : find_real_function_definition f.name d = some (rn, rdef)) :
    generate_binding_function f d = some (buildWrapper rn rdef d) ∧
    (stripVoidArgs rdef.args ≠ [] →
      (buildWrapper rn rdef d).head? =
        some (.arityCheck (stripVoidArgs rdef.args).length) ∧
      (∀ args : List JVal, args.length < (stripVoidArgs rdef.args).length →
        runStmts (buildWrapper rn rdef d) args initRunState =
          .errored "Insufficient arguments" initRunState) ∧
      (∀ args : List JVal, ¬ args.length < (stripVoidArgs rdef.args).length →
        runStmts (buildWrapper rn rdef d) args initRunState =
          runStmts ((argCodes (stripVoidArgs rdef.args) d).map WStmt.argParse ++
            wrapperTail rn rdef d) args initRunState)) ∧
    (stripVoidArgs rdef.args = [] →
      ∀ n, WStmt.arityCheck n ∉ buildWrapper rn rdef d) := by
  refine ⟨by simp [generate_binding_function, hfind], ?_, ?_⟩
  · intro hne
    have hemp : (stripVoidArgs rdef.args).isEmpty = false := by
      rcases hc : stripVoidArgs rdef.args with _ | ⟨a, l⟩
      · exact absurd hc hne
      · rfl
    have hwrap : buildWrapper rn rdef d =
        WStmt.arityCheck (stripVoidArgs rdef.args).length ::
          ((argCodes (stripVoidArgs rdef.args) d).map WStmt.argParse ++
            wrapperTail rn rdef d) := by
      simp [buildWrapper, hemp]
    refine ⟨by rw [hwrap]; rfl, ?_, ?_⟩
    · intro args hlt
      rw [hwrap]
      simp [runStmts, hlt]
    · intro args hge
      rw [hwrap]
      simp [runStmts, hge]
  · intro hnil n
    have hwrap : buildWrapper rn rdef d = wrapperTail rn rdef d := by
      simp [buildWrapper, argCodes, hnil, enumFrom]
    rw [hwrap]
    unfold wrapperTail
    rw [hnil]
    by_cases hrv : ((match rdef.type with
        | some t => parseType t
        | none => ("void", voidMeta)).1 == "void") = true
    · simp [hrv, stringArgNames, enumFrom]
    · have hrv2 := eq_false_of_ne_true hrv
      simp [hrv2, stringArgNames, enumFrom]

/-- C4 witness for the amended claim: the one-int-parameter function
set_x gets the arity check of one and rejects the empty call with the
insufficient-arguments error. -/
theorem c4_arity_check_is_lower_bound_witness :
    (buildWrapper "set_x" setXDef c4data).head? = some (.arityCheck 1) ∧
    runStmts (buildWrapper "set_x" setXDef c4data) [] initRunState =
      .errored "Insufficient arguments" initRunState := by
  have h := (c4_arity_check_is_lower_bound setXDef c4data "set_x" setXDef
    (by decide)).2.1 (by decide)
  exact ⟨h.1, h.2.1 [] (by decide)⟩

/-! ## Short-circuit semantics of argument validation -/

/-- Running the argument-parse section: when every block of the prefix
validates and the next block fails, execution stops at the failing
block with exactly the string buffers of the successful prefix
allocated, nothing freed, and nothing after the failing block
executed. -/
lemma runStmts_parse_fail (args : List JVal) (msg : String)
    (pre : List ArgParseCode) (cf : ArgParseCode) (post : List ArgParseCode)
    (rest : List WStmt) (s : RunState)
    (hok : ∀ c ∈ pre, stepParse c (args.getD (codeIndex c) .undefined) = none)
    (hf : stepParse cf (args.getD (codeIndex cf) .undefined) = some msg) :
    runStmts ((pre ++ cf :: post).map WStmt.argParse ++ rest) args s =
      .errored msg { s with allocated := s.allocated ++ pre.filterMap parseAllocates,
                            processed := s.processed + (pre.length + 1) } := by
  induction pre generalizing s with
  | nil =>
      simp only [List.nil_append, List.map_cons, List.cons_append, runStmts, hf]
      simp
  | cons c pre ih =>
      have hc := hok c (by simp)
      have hok2 : ∀ x ∈ pre, stepParse x (args.getD (codeIndex x) .undefined) = none :=
        fun x hx => hok x (by simp [hx])
      simp only [List.cons_append, List.map_cons, runStmts, hc, List.append_eq]
      rw [ih _ hok2]
      rcases hpa : parseAllocates c with _ | nmc <;>
        simp [hpa, List.filterMap_cons, List.append_assoc] <;> omega

/-- C8: in a generated wrapper, when the argument blocks before some
parameter all validate and that parameter's validation fails, the
wrapper stops there: the error is raised with the native function not
called, no later parameter processed (exactly the prefix plus the
failing block have executed), and the string buffers already allocated
for the earlier parameters still allocated and not released. -/
theorem c8_validation_failure_short_circuits
    (f : FuncDef) (d : ApiData) (rn : String) (rdef : FuncDef)
    (args : List JVal) (msg : String)
    (pre post : List ArgParseCode) (cf : ArgParseCode)
    (hfind : find_real_function_definition f.name d = some (rn, rdef))
    (hne : stripVoidArgs rdef.args ≠ [])
    (hsplit : argCodes (stripVoidArgs rdef.args) d = pre ++ cf :: post)
    (hlen : (stripVoidArgs rdef.args).length ≤ args.length)
    (hok : ∀ c ∈ pre, stepParse c (args.getD (codeIndex c) .undefined) = none)
    (hf : stepParse cf (args.getD (codeIndex cf) .undefined) = some msg) :
    generate_binding_function f d = some (buildWrapper rn rdef d) ∧
    runStmts (buildWrapper rn rdef d) args initRunState =
      .errored msg ⟨pre.filterMap parseAllocates, [], false, pre.length + 1⟩ := by
  refine ⟨by simp [generate_binding_function, hfind], ?_⟩
  have hemp : (stripVoidArgs rdef.args).isEmpty = false := by
    rcases hc : stripVoidArgs rdef.args with _ | ⟨a, l⟩
    · exact absurd hc hne
    · rfl
  have hwrap : buildWrapper rn rdef d =
      WStmt.arityCheck (stripVoidArgs rdef.args).length ::
        ((pre ++ cf :: post).map WStmt.argParse ++ wrapperTail rn rdef d) := by
    simp [buildWrapper, hemp, hsplit]
  rw [hwrap]
  have hge : ¬ args.length < (stripVoidArgs rdef.args).length := Nat.not_lt.mpr hlen
  simp only [runStmts, hge, if_false]
  rw [runStmts_parse_fail args msg pre cf post (wrapperTail rn rdef d) initRunState hok hf]
  simp [initRunState]

/-- C8 witness: the wrapper of the function with a string parameter
followed by an int parameter, called with a string and then a second
string: the first buffer is allocated, the second parameter fails,
and execution stops with the buffer still held, nothing freed and the
native function not called. -/
theorem c8_validation_failure_short_circuits_witness :
    runStmts (buildWrapper "w2" w2Def c8data) [.str "hi", .str "bad"] initRunState =
      .errored "Argument 1 must be a number" ⟨["s"], [], false, 2⟩ :=
  (c8_validation_failure_short_circuits w2Def c8data "w2" w2Def
      [.str "hi", .str "bad"] "Argument 1 must be a number"
      [.stringArg 0 "s"] [] (.numberArg 1 "n" "int")
      (by decide) (by decide) (by decide) (by decide) (by decide) (by decide)).2

/-! ## Curated-list loading lemmas -/

/-- The export loop accumulates exactly the keep-first deduplication of
the cleaned lines that are new with respect to the seen set. -/
lemma loadExportLoop_out (lines : List String) (fns out : List String) :
    (loadExportLoop lines fns out).2 = out ++ dedupFirstAux fns (cleanedLines lines) := by
  induction lines generalizing fns out with
  | nil => simp [loadExportLoop, cleanedLines, dedupFirstAux]
  | cons raw rest ih =>
      by_cases hv : validLine (pyStrip raw) = true
      · have hclean : cleanedLines (raw :: rest) =
            pyStrip raw :: cleanedLines rest := by
          simp [cleanedLines, hv]
        by_cases hc : fns.contains (pyStrip raw) = true
        · have hins : insertSet fns (pyStrip raw) = fns := by
            simp only [insertSet, hc, if_true]
          simp only [loadExportLoop, hv, if_true, hc, hins, hclean, dedupFirstAux]
          exact ih fns out
        · have hc2 : fns.contains (pyStrip raw) = false := by simpa using hc
          have hins : insertSet fns (pyStrip raw) = fns ++ [pyStrip raw] := by
            simp only [insertSet, hc2, Bool.false_eq_true, if_false]
          simp only [loadExportLoop, hv, if_true, hc2, Bool.false_eq_true, if_false,
            hins, hclean, dedupFirstAux]
          rw [ih (fns ++ [pyStrip raw]) (out ++ [pyStrip raw])]
          simp
      · have hv2 : validLine (pyStrip raw) = false := by simpa using hv
        have hclean : cleanedLines (raw :: rest) = cleanedLines rest := by
          simp [cleanedLines, hv2]
        simp only [loadExportLoop, hv2, Bool.false_eq_true, if_false, hclean]
        exact ih fns out

/-- The blacklist loop accumulates the same keep-first deduplication
into its set. -/
lemma loadBlacklistLoop_out (lines : List String) (s : List String) :
    loadBlacklistLoop lines s = s ++ dedupFirstAux s (cleanedLines lines) := by
  induction lines generalizing s with
  | nil => simp [loadBlacklistLoop, cleanedLines, dedupFirstAux]
  | cons raw rest ih =>
      by_cases hv : validLine (pyStrip raw) = true
      · have hclean : cleanedLines (raw :: rest) =
            pyStrip raw :: cleanedLines rest := by
          simp [cleanedLines, hv]
        by_cases hc : s.contains (pyStrip raw) = true
        · have hins : insertSet s (pyStrip raw) = s := by
            simp only [insertSet, hc, if_true]
          simp only [loadBlacklistLoop, hv, if_true, hc, hins, hclean, dedupFirstAux]
          exact ih s
        · have hc2 : s.contains (pyStrip raw) = false := by simpa using hc
          have hins : insertSet s (pyStrip raw) = s ++ [pyStrip raw] := by
            simp only [insertSet, hc2, Bool.false_eq_true, if_false]
          simp only [loadBlacklistLoop, hv, if_true, hc2, Bool.false_eq_true, if_false,
            hins, hclean, dedupFirstAux]
          rw [ih (s ++ [pyStrip raw])]
          simp
      · have hv2 : validLine (pyStrip raw) = false := by simpa using hv
        have hclean : cleanedLines (raw :: rest) = cleanedLines rest := by
          simp [cleanedLines, hv2]
        simp only [loadBlacklistLoop, hv2, Bool.false_eq_true, if_false, hclean]
        exact ih s

/-- C9 (amended): loading the export list deduplicates it in place —
the file is rewritten with exactly the keep-first deduplication of its
stripped lines, blank lines and comment lines dropped, first
occurrences kept in order; loading the blacklist builds the same
deduplicated set in memory but performs no write, so the blacklist
file keeps its original content, duplicates included. -/
theorem c9_export_dedup_blacklist_unchanged (fileLines : List String) :
    exportFileAfter fileLines = dedupFirst (cleanedLines fileLines) ∧
    load_blacklist_functions fileLines = dedupFirst (cleanedLines fileLines) ∧
    blacklistFileAfter fileLines = fileLines := by
  refine ⟨?_, ?_, rfl⟩
  · have h := loadExportLoop_out fileLines [] []
    simpa [exportFileAfter, load_export_functions, dedupFirst] using h
  · have h := loadBlacklistLoop_out fileLines []
    simpa [load_blacklist_functions, dedupFirst] using h

/-- C9 witness: the amended statement instantiated on the duplicated
file content. -/
theorem c9_export_dedup_blacklist_unchanged_witness :
    exportFileAfter ["f", "f"] = dedupFirst (cleanedLines ["f", "f"]) ∧
    load_blacklist_functions ["f", "f"] = dedupFirst (cleanedLines ["f", "f"]) ∧
    blacklistFileAfter ["f", "f"] = ["f", "f"] :=
  c9_export_dedup_blacklist_unchanged ["f", "f"]
